import Mathlib

/-!
Shallow embedding of the BackyardGPT image-upload pipeline:
the `UploadImage` serverless handler (backend/functions/UploadImage/index.js,
reproduced in Feature Prompts/CameraCapture.md) and the capture/compress
client (frontend/src/components/Camera/YardCamera.jsx).

JavaScript strings are modelled as `List Char`.  External collaborators
(the Node `Buffer.from` base64 decoder, the blob-store client, the clock,
the UUID generator) are modelled as fields of an `Env` record; interactions
with the remote store are recorded as an explicit effect trace.
-/

namespace BackyardGPT

/-- JavaScript strings, modelled as lists of characters. -/
abbrev JStr := List Char

/-- `\w` in a JavaScript regex: `[A-Za-z0-9_]`. -/
def isWordChar (c : Char) : Bool := c.isAlphanum || c == '_'

/-- The literal head of the data-URI pattern `/^data:image\/\w+;base64,/`. -/
def dataImageHead : JStr := "data:image/".toList

/-- The literal tail of the data-URI pattern. -/
def base64Marker : JStr := ";base64,".toList

/-- Embeds `s.replace(/^data:image\/\w+;base64,/, '')`: if the string starts
with `data:image/`, a non-empty run of word characters and `;base64,`, drop
that prefix; otherwise return the string unchanged. -/
def stripDataUri (s : JStr) : JStr :=
  if dataImageHead.isPrefixOf s then
    let rest := s.drop dataImageHead.length
    let run := rest.takeWhile isWordChar
    let after := rest.drop run.length
    if 0 < run.length ∧ base64Marker.isPrefixOf after then after.drop base64Marker.length
    else s
  else s

/-- The character class `[A-Za-z0-9+/]` of the base64 regex. -/
def isB64Char (c : Char) : Bool := c.isAlphanum || c == '+' || c == '/'

/-- The test of `/^[A-Za-z0-9+/]*={0,2}$/`: a run of base64 characters
followed by at most two `=` signs. -/
def b64PatternTest (s : JStr) : Bool :=
  let rest := s.dropWhile isB64Char
  decide (rest.length ≤ 2) && rest.all (fun c => c == '=')

/-- Embeds `isValidBase64`: reject empty strings (falsy in JavaScript), strip
a data-URI prefix, then test the base64 pattern. -/
def isValidBase64 (s : JStr) : Bool :=
  !s.isEmpty && b64PatternTest (stripDataUri s)

/-- Value of one base64 digit. -/
def b64Val (c : Char) : Nat :=
  if c == '+' then 62
  else if c == '/' then 63
  else if c.isDigit then c.toNat - 48 + 52
  else if c.isLower then c.toNat - 97 + 26
  else c.toNat - 65

/-- Repack a list of 6-bit base64 digit values into 8-bit bytes: each full
group of four digits yields three bytes, a trailing group of three yields
two, of two yields one, and a single leftover digit is dropped. -/
def b64Quads : List Nat → List Nat
  | a :: b :: c :: d :: rest =>
      (a * 4 + b / 16) :: ((b % 16) * 16 + c / 4) :: ((c % 4) * 64 + d) :: b64Quads rest
  | [a, b, c] => [a * 4 + b / 16, (b % 16) * 16 + c / 4]
  | [a, b] => [a * 4 + b / 16]
  | _ => []

/-- Node's `Buffer.from(s, 'base64')` on strings that pass the pattern test:
`=` padding is dropped and the remaining digits are repacked into bytes
(a lone trailing digit contributes no byte). -/
def nodeB64Decode (s : JStr) : List Nat :=
  b64Quads ((s.filter (fun c => c != '=')).map b64Val)

/-- Embeds `base64ToBuffer`: strip a data-URI prefix, then hand the string to
the `Buffer.from` collaborator (`bufferFrom`). -/
def base64ToBuffer (bufferFrom : JStr → Except JStr (List Nat)) (s : JStr) :
    Except JStr (List Nat) :=
  bufferFrom (stripDataUri s)

/-- The character class `[a-zA-Z0-9._-]` kept by filename sanitization. -/
def isAllowedFileChar (c : Char) : Bool :=
  c.isAlphanum || c == '.' || c == '_' || c == '-'

/-- Embeds `customFileName.replace(/[^a-zA-Z0-9._-]/g, '_')`: every character
outside the class is replaced by `_`. -/
def sanitizeFileName : JStr → JStr
  | [] => []
  | c :: rest => (if isAllowedFileChar c then c else '_') :: sanitizeFileName rest

/-- The `.jpg` extension. -/
def jpgExt : JStr := ".jpg".toList

/-- Embeds `s.endsWith('.jpg')`. -/
def endsWithJpg (s : JStr) : Bool := jpgExt.isSuffixOf s

/-- An underscore separator. -/
def usep : JStr := "_".toList

/-- Decimal rendering of a natural number, as in JavaScript template output. -/
def natToJStr (n : Nat) : JStr := (Nat.repr n).toList

/-- Embeds `generateUniqueFileName(userId, customFileName)`.  A supplied
filename that is truthy (non-empty) is sanitized and given a `.jpg`
extension unless it already ends in `.jpg`; otherwise the name
`userId_timestamp_uuid.jpg` is synthesized from `Date.now()` and `uuidv4()`
(passed in as `nowMs` and `uuid`). -/
def generateUniqueFileName (nowMs : Nat) (uuid : JStr) (userId : JStr)
    (customFileName : Option JStr) : JStr :=
  if (customFileName.getD []).isEmpty then
    userId ++ usep ++ natToJStr nowMs ++ usep ++ uuid ++ jpgExt
  else
    let sanitized := sanitizeFileName (customFileName.getD [])
    if endsWithJpg sanitized then sanitized else sanitized ++ jpgExt

/-- Embeds `uniqueFileName.replace('.jpg', '')`: JavaScript `replace` with a
string pattern removes only the first occurrence of `.jpg`. -/
def removeFirstJpg : JStr → JStr
  | [] => []
  | c :: rest =>
      if jpgExt.isPrefixOf (c :: rest) then (c :: rest).drop jpgExt.length
      else c :: removeFirstJpg rest

/-- Embeds `userId.trim()`: whitespace removed from both ends. -/
def jsTrim (s : JStr) : JStr :=
  ((s.dropWhile Char.isWhitespace).reverse.dropWhile Char.isWhitespace).reverse

/-- JavaScript truthiness of an optional string field: absent (`undefined`)
and the empty string are falsy. -/
def truthy : Option JStr → Bool
  | none => false
  | some s => !s.isEmpty

/-- Constant `CONTAINER_NAME`. -/
def CONTAINER_NAME : JStr := "yard-images".toList

/-- Constant `MAX_IMAGE_SIZE_MB`. -/
def MAX_IMAGE_SIZE_MB : Nat := 10

/-- Constant `MAX_IMAGE_SIZE_BYTES`. -/
def MAX_IMAGE_SIZE_BYTES : Nat := MAX_IMAGE_SIZE_MB * 1024 * 1024

/-- Constant `MAX_RETRIES`. -/
def MAX_RETRIES : Nat := 3

/-- Constant `RETRY_DELAY_MS`. -/
def RETRY_DELAY_MS : Nat := 1000

/-- `(imageSizeBytes / (1024*1024)).toFixed(2)` as a count of hundredths of
a megabyte.  The quotient `bytes / 2^20` is exactly representable in binary
floating point for every realistic size, and `toFixed` picks the nearest
two-decimal value, preferring the larger on a tie, i.e. half-up rounding of
`100 * bytes / 2^20`. -/
def sizeMBHundredths (bytes : Nat) : Nat :=
  (bytes * 100 * 2 + 1048576) / (1048576 * 2)

/-- Two-digit rendering of a value below 100 (the fractional part of a
`toFixed(2)` string). -/
def twoDigits (n : Nat) : JStr :=
  if n < 10 then '0' :: natToJStr n else natToJStr n

/-- The `toFixed(2)` string for a value given in hundredths. -/
def fixed2Str (h : Nat) : JStr :=
  natToJStr (h / 100) ++ ('.' :: twoDigits (h % 100))

/-- The parsed JSON request body: each field is a string or absent. -/
structure RequestBody where
  imageData : Option JStr
  userId : Option JStr
  fileName : Option JStr

/-- Interactions of the handler with the outside world, in order. -/
inductive Effect where
  | createClient : Effect
  | createContainer (name : JStr) : Effect
  | uploadAttempt (attempt : Nat) (fileName : JStr) (data : List Nat) : Effect
  | sleep (ms : Nat) : Effect
deriving DecidableEq

/-- The JSON responses of the handler.  The number fields `actualSizeMB` and
`sizeMB` are `parseFloat` of a `toFixed(2)` string, hence always an exact
multiple of 1/100; they are carried as counts of hundredths. -/
inductive Response where
  | fail (status : Nat) (error : JStr) (message : JStr) : Response
  | oversize (status : Nat) (error : JStr) (message : JStr)
      (maxSizeMB : Nat) (actualSizeMBHundredths : Nat) : Response
  | success (imageUrl : Option JStr) (imageId : JStr) (uploadedAt : JStr)
      (sizeBytes : Nat) (sizeMBHundredths : Nat) : Response
deriving DecidableEq

/-- The HTTP status of a response. -/
def Response.status : Response → Nat
  | .fail s _ _ => s
  | .oversize s _ _ _ _ => s
  | .success _ _ _ _ _ => 200

/-- External collaborators of the handler: the connection-string environment
variable, the Node base64 decoder, the per-attempt outcome of
`blockBlobClient.uploadData`, the blob URL for a filename, `Date.now()`,
`uuidv4()` and `new Date().toISOString()`. -/
structure Env where
  connectionString : Option JStr
  bufferFrom : JStr → Except JStr (List Nat)
  uploadData : Nat → Except JStr Unit
  blobUrl : JStr → JStr
  nowMs : Nat
  uuid : JStr
  nowIso : JStr

/-- Head of the message thrown when all retries are exhausted:
`Upload failed after ${MAX_RETRIES} attempts: `. -/
def exhaustHead : JStr :=
  ("Upload failed after ".toList) ++ natToJStr MAX_RETRIES ++ (" attempts: ".toList)

/-- The retry loop of `uploadWithRetry`, with the remaining fuel made
explicit (`fuel = MAX_RETRIES + 1 - attempt` along the execution; the
fuel-0 case is the loop falling through, which returns `undefined` and is
unreachable because the last attempt throws).  Returns the result together
with the trace of upload attempts and backoff sleeps. -/
def attemptLoop (env : Env) (fileName : JStr) (buffer : List Nat) :
    Nat → Nat → Except JStr (Option JStr) × List Effect
  | _, 0 => (Except.ok none, [])
  | attempt, fuel + 1 =>
    match env.uploadData attempt with
    | Except.ok _ =>
        (Except.ok (some (env.blobUrl fileName)),
          [Effect.uploadAttempt attempt fileName buffer])
    | Except.error msg =>
        if attempt == MAX_RETRIES then
          (Except.error (exhaustHead ++ msg),
            [Effect.uploadAttempt attempt fileName buffer])
        else
          let delayMs := RETRY_DELAY_MS * 2 ^ (attempt - 1)
          let next := attemptLoop env fileName buffer (attempt + 1) fuel
          (next.1,
            Effect.uploadAttempt attempt fileName buffer :: Effect.sleep delayMs :: next.2)

/-- Embeds `uploadWithRetry`: up to `MAX_RETRIES` attempts starting at 1. -/
def uploadWithRetry (env : Env) (fileName : JStr) (buffer : List Nat) :
    Except JStr (Option JStr) × List Effect :=
  attemptLoop env fileName buffer 1 MAX_RETRIES

/-- Response for a body that does not parse as JSON. -/
def respInvalidJson : Response :=
  .fail 400 ("Invalid request".toList) ("Request body must be valid JSON".toList)

/-- Response for a missing `imageData` or `userId`. -/
def respMissingFields : Response :=
  .fail 400 ("Missing required fields".toList)
    ("Both imageData and userId are required".toList)

/-- Response for a `userId` that is empty after trimming. -/
def respInvalidUserId : Response :=
  .fail 400 ("Invalid userId".toList) ("userId must be a non-empty string".toList)

/-- Response for `imageData` failing the base64 pattern. -/
def respInvalidBase64 : Response :=
  .fail 400 ("Invalid image data".toList)
    ("imageData must be a valid base64 encoded string".toList)

/-- Response for a base64 decode failure. -/
def respDecodeFailure : Response :=
  .fail 400 ("Invalid image data".toList)
    ("Failed to decode base64 image data".toList)

/-- Response for a missing connection string. -/
def respConfigError : Response :=
  .fail 500 ("Configuration error".toList)
    ("Storage connection string not configured".toList)

/-- Response when `uploadWithRetry` throws. -/
def respUploadFailed (msg : JStr) : Response :=
  .fail 500 ("Upload failed".toList) msg

/-- The 413 oversize response, with the limit and the actual size in MB. -/
def respOversize (bytes : Nat) : Response :=
  .oversize 413 ("Image too large".toList)
    (("Image size (".toList) ++ fixed2Str (sizeMBHundredths bytes) ++
      (" MB) exceeds maximum allowed size of ".toList) ++
      natToJStr MAX_IMAGE_SIZE_MB ++ (" MB".toList))
    MAX_IMAGE_SIZE_MB (sizeMBHundredths bytes)

/-- Embeds the `UploadImage` handler.  `parsed` is the result of
`request.json()` (`none` when parsing throws).  Returns the response and
the trace of store interactions. -/
def handler (parsed : Option RequestBody) (env : Env) : Response × List Effect :=
  match parsed with
  | none => (respInvalidJson, [])
  | some body =>
    if !truthy body.imageData || !truthy body.userId then (respMissingFields, [])
    else
      let imageData := body.imageData.getD []
      let userId := body.userId.getD []
      if (jsTrim userId).isEmpty then (respInvalidUserId, [])
      else if !isValidBase64 imageData then (respInvalidBase64, [])
      else
        match base64ToBuffer env.bufferFrom imageData with
        | Except.error _ => (respDecodeFailure, [])
        | Except.ok imageBuffer =>
          let imageSizeBytes := imageBuffer.length
          if MAX_IMAGE_SIZE_BYTES < imageSizeBytes then
            (respOversize imageSizeBytes, [])
          else
            match env.connectionString with
            | none => (respConfigError, [])
            | some _ =>
              let uniqueFileName :=
                generateUniqueFileName env.nowMs env.uuid userId body.fileName
              let up := uploadWithRetry env uniqueFileName imageBuffer
              let effects :=
                Effect.createClient :: Effect.createContainer CONTAINER_NAME :: up.2
              match up.1 with
              | Except.error msg => (respUploadFailed msg, effects)
              | Except.ok urlOpt =>
                  (Response.success urlOpt (removeFirstJpg uniqueFileName)
                    env.nowIso imageSizeBytes (sizeMBHundredths imageSizeBytes), effects)

/-- Counts the upload attempts recorded in an effect trace. -/
def countAttempts (l : List Effect) : Nat :=
  (l.filter (fun e => match e with | .uploadAttempt _ _ _ => true | _ => false)).length

/-! ### Capture-and-compress client (YardCamera.jsx) -/

/-- The result object of `ImageManipulator.manipulateAsync`: its `base64`
field is a string or absent. -/
structure ManipResult where
  base64 : Option JStr

/-- The `data:image/jpeg;base64,` marker prepended on success. -/
def dataUriJpeg : JStr := "data:image/jpeg;base64,".toList

/-- The message of the error thrown when the re-encoder yields no base64. -/
def noBase64Msg : JStr := "Image compression failed to produce base64 output".toList

/-- The user-facing message rethrown by `compressImage`'s catch block. -/
def processFailedMsg : JStr := "Failed to process image. Please try again.".toList

/-- The body of `compressImage`'s try block: fail when the re-encoder fails
or produces a falsy `base64` field, otherwise prepend the data-URI marker. -/
def compressTryBody (manip : Except JStr ManipResult) : Except JStr JStr :=
  match manip with
  | Except.error e => Except.error e
  | Except.ok m =>
    match m.base64 with
    | none => Except.error noBase64Msg
    | some b => if b.isEmpty then Except.error noBase64Msg else Except.ok (dataUriJpeg ++ b)

/-- Embeds `compressImage`: any error inside the try block is caught and
rethrown as the user-facing processing error. -/
def compressImage (manip : Except JStr ManipResult) : Except JStr JStr :=
  match compressTryBody manip with
  | Except.ok v => Except.ok v
  | Except.error _ => Except.error processFailedMsg

/-- Observable actions of `handleUsePhoto`. -/
inductive ClientAction where
  | callOnCapture (data : JStr) : ClientAction
  | showError (msg : JStr) : ClientAction
deriving DecidableEq

/-- Embeds `handleUsePhoto`: with no captured image it does nothing; with
one it compresses once, calling `onCapture` on success and reporting the
error message on failure (no local retry). -/
def handleUsePhoto (capturedImage : Option JStr) (manip : Except JStr ManipResult) :
    List ClientAction :=
  match capturedImage with
  | none => []
  | some _ =>
    match compressImage manip with
    | Except.ok b => [ClientAction.callOnCapture b]
    | Except.error m => [ClientAction.showError m]

/-! ### Specification-side definitions

These follow the spec's words (not the source) and are compared with the
source-derived definitions in the refinement theorems below. -/

/-- Modelled from the spec: the derived identifier is "the upload's filename
with its trailing `.jpg` suffix removed". -/
def specDerivedId (fn : JStr) : JStr :=
  if endsWithJpg fn then fn.take (fn.length - jpgExt.length) else fn

/-- Modelled from the spec: a filename "ends in `.jpg` exactly once" when it
ends in `.jpg` and what precedes that suffix does not itself end in
`.jpg`. -/
def endsInJpgExactlyOnce (s : JStr) : Bool :=
  endsWithJpg s && !endsWithJpg (s.take (s.length - jpgExt.length))

/-- Modelled from the spec: `actualSizeMB` is "`bytes / (1024*1024)` rounded
to 2 decimals". -/
def specActualSizeMB (bytes : Nat) : ℚ :=
  (round ((bytes : ℚ) / (1024 * 1024) * 100) : ℤ) / 100

/-- The `maxSizeMB` field of a response, when present. -/
def Response.limitMB : Response → Option Nat
  | .oversize _ _ _ m _ => some m
  | _ => none

/-- The `actualSizeMB` field of a response in hundredths, when present. -/
def Response.actualMBH : Response → Option Nat
  | .oversize _ _ _ _ a => some a
  | _ => none

/-! ### Concrete fixtures used by witnesses and counterexamples -/

/-- An environment whose base64 decoder is Node's and whose store accepts
every upload on the first attempt. -/
def envNode : Env where
  connectionString := some ("cs".toList)
  bufferFrom := fun s => Except.ok (nodeB64Decode s)
  uploadData := fun _ => Except.ok ()
  blobUrl := fun fn => ("https://store.example/yard-images/".toList) ++ fn
  nowMs := 5
  uuid := "ab".toList
  nowIso := "2024-01-01T00:00:00.000Z".toList

/-- An environment whose store fails attempts 1 and 2 and accepts 3. -/
def envFail12 : Env :=
  { envNode with
      uploadData := fun n => if n < 3 then Except.error ("boom".toList) else Except.ok () }

/-- An environment whose store fails every upload attempt. -/
def envFailAll : Env :=
  { envNode with uploadData := fun _ => Except.error ("boom".toList) }

/-- An environment whose base64 decoder throws. -/
def envDecodeFail : Env :=
  { envNode with bufferFrom := fun _ => Except.error ("bad".toList) }

/-- An environment whose base64 decoder yields `10 MiB + 1` bytes. -/
def envBig : Env :=
  { envNode with bufferFrom := fun _ => Except.ok (List.replicate 10485761 0) }

/-- A request with both required fields absent. -/
def bodyMissing : RequestBody := ⟨none, none, none⟩

/-- A well-formed request: one decoded byte, no custom filename. -/
def bodyGood : RequestBody := ⟨some ("QQ==".toList), some ("u".toList), none⟩

/-- A request whose `userId` is a single space (whitespace-only). -/
def bodyWs : RequestBody := ⟨some ("QQ==".toList), some (" ".toList), none⟩

/-- A request whose `userId` is the empty string. -/
def bodyEmptyUid : RequestBody := ⟨some ("QQ==".toList), some [], none⟩

/-- A request whose `imageData` fails the base64 pattern. -/
def bodyBad64 : RequestBody := ⟨some ("!!".toList), some ("u".toList), none⟩

/-- A request with a custom filename containing `.jpg` away from the end. -/
def bodyC3 : RequestBody := ⟨some ("QQ==".toList), some ("u".toList), some ("a.jpgb".toList)⟩

/-- A request whose `imageData` is the single character `A`. -/
def bodyA : RequestBody := ⟨some ("A".toList), some ("u1".toList), none⟩

/-! ## Theorems -/

/-- C1: the endpoint runs its six validation checks in the stated order —
JSON parse, presence of `imageData` and `userId`, `userId` non-empty after
trimming, base64 pattern, byte decoding, decoded-size ceiling — each
failing check short-circuits the handler with its own distinct error
response (400 for the first five, 413 for the size check) before any later
check runs. -/
theorem C1_validation_order :
    (∀ env, handler none env = (respInvalidJson, [])) ∧
    (∀ body env, (truthy body.imageData && truthy body.userId) = false →
        handler (some body) env = (respMissingFields, [])) ∧
    (∀ body env, (truthy body.imageData && truthy body.userId) = true →
        (jsTrim (body.userId.getD [])).isEmpty = true →
        handler (some body) env = (respInvalidUserId, [])) ∧
    (∀ body env, (truthy body.imageData && truthy body.userId) = true →
        (jsTrim (body.userId.getD [])).isEmpty = false →
        isValidBase64 (body.imageData.getD []) = false →
        handler (some body) env = (respInvalidBase64, [])) ∧
    (∀ body env msg, (truthy body.imageData && truthy body.userId) = true →
        (jsTrim (body.userId.getD [])).isEmpty = false →
        isValidBase64 (body.imageData.getD []) = true →
        base64ToBuffer env.bufferFrom (body.imageData.getD []) = Except.error msg →
        handler (some body) env = (respDecodeFailure, [])) ∧
    (∀ body env buf, (truthy body.imageData && truthy body.userId) = true →
        (jsTrim (body.userId.getD [])).isEmpty = false →
        isValidBase64 (body.imageData.getD []) = true →
        base64ToBuffer env.bufferFrom (body.imageData.getD []) = Except.ok buf →
        MAX_IMAGE_SIZE_BYTES < buf.length →
        handler (some body) env = (respOversize buf.length, [])) ∧
    List.Pairwise (· ≠ ·)
      [respInvalidJson, respMissingFields, respInvalidUserId, respInvalidBase64,
        respDecodeFailure] ∧
    respInvalidJson.status = 400 ∧ respMissingFields.status = 400 ∧
    respInvalidUserId.status = 400 ∧ respInvalidBase64.status = 400 ∧
    respDecodeFailure.status = 400 ∧
    (∀ n, (respOversize n).status = 413 ∧ respOversize n ≠ respInvalidJson ∧
      respOversize n ≠ respMissingFields ∧ respOversize n ≠ respInvalidUserId ∧
      respOversize n ≠ respInvalidBase64 ∧ respOversize n ≠ respDecodeFailure) := by
  refine ⟨?_, ?_, ?_, ?_, ?_, ?_, by decide, by decide, by decide, by decide,
    by decide, by decide, ?_⟩
  · intro env; rfl
  · intro body env h
    rcases Bool.and_eq_false_iff.mp h with h1 | h1 <;> simp [handler, h1]
  · intro body env h h2
    simp only [Bool.and_eq_true] at h
    obtain ⟨h1a, h1b⟩ := h
    simp [handler, h1a, h1b, h2]
  · intro body env h h2 h3
    simp only [Bool.and_eq_true] at h
    obtain ⟨h1a, h1b⟩ := h
    simp [handler, h1a, h1b, h2, h3]
  · intro body env msg h h2 h3 h4
    simp only [Bool.and_eq_true] at h
    obtain ⟨h1a, h1b⟩ := h
    simp [handler, h1a, h1b, h2, h3, h4]
  · intro body env buf h h2 h3 h4 h5
    simp only [Bool.and_eq_true] at h
    obtain ⟨h1a, h1b⟩ := h
    simp [handler, h1a, h1b, h2, h3, h4, h5]
  · intro n
    refine ⟨rfl, ?_, ?_, ?_, ?_, ?_⟩ <;>
      · intro h
        have h' : (413 : Nat) = 400 := congrArg Response.status h
        exact absurd h' (by decide)

/-- Witness for C1: each short-circuiting branch exercised on a concrete
request. -/
theorem C1_validation_order_witness :
    handler none envNode = (respInvalidJson, []) ∧
    handler (some bodyMissing) envNode = (respMissingFields, []) ∧
    handler (some bodyWs) envNode = (respInvalidUserId, []) ∧
    handler (some bodyBad64) envNode = (respInvalidBase64, []) ∧
    handler (some bodyGood) envDecodeFail = (respDecodeFailure, []) ∧
    handler (some bodyGood) envBig = (respOversize (List.replicate 10485761 0).length, []) := by
  refine ⟨C1_validation_order.1 envNode,
    C1_validation_order.2.1 bodyMissing envNode (by decide),
    C1_validation_order.2.2.1 bodyWs envNode (by decide) (by decide),
    C1_validation_order.2.2.2.1 bodyBad64 envNode (by decide) (by decide) (by decide),
    C1_validation_order.2.2.2.2.1 bodyGood envDecodeFail ("bad".toList)
      (by decide) (by decide) (by decide) rfl,
    C1_validation_order.2.2.2.2.2.1 bodyGood envBig (List.replicate 10485761 0)
      (by decide) (by decide) (by decide) rfl ?_⟩
  rw [List.length_replicate]
  decide

/-- C2: the store upload is attempted at most 3 times with backoff delays of
1s after the first failed attempt and 2s after the second; failures on
attempts 1 and 2 followed by success on attempt 3 yield overall success
with the blob URL; failure of all 3 attempts makes `uploadWithRetry` throw,
which the handler maps to a 500 upload-failed response distinguishable from
the validation errors. -/
theorem C2_retry_policy :
    (∀ env fn buf, countAttempts (uploadWithRetry env fn buf).2 ≤ 3) ∧
    (∀ env fn buf m1 m2,
        env.uploadData 1 = Except.error m1 → env.uploadData 2 = Except.error m2 →
        env.uploadData 3 = Except.ok () →
        uploadWithRetry env fn buf =
          (Except.ok (some (env.blobUrl fn)),
           [Effect.uploadAttempt 1 fn buf, Effect.sleep 1000,
            Effect.uploadAttempt 2 fn buf, Effect.sleep 2000,
            Effect.uploadAttempt 3 fn buf])) ∧
    (∀ env fn buf m1 m2 m3,
        env.uploadData 1 = Except.error m1 → env.uploadData 2 = Except.error m2 →
        env.uploadData 3 = Except.error m3 →
        uploadWithRetry env fn buf =
          (Except.error (exhaustHead ++ m3),
           [Effect.uploadAttempt 1 fn buf, Effect.sleep 1000,
            Effect.uploadAttempt 2 fn buf, Effect.sleep 2000,
            Effect.uploadAttempt 3 fn buf])) ∧
    (∀ body env buf cs m1 m2 m3,
        (truthy body.imageData && truthy body.userId) = true →
        (jsTrim (body.userId.getD [])).isEmpty = false →
        isValidBase64 (body.imageData.getD []) = true →
        base64ToBuffer env.bufferFrom (body.imageData.getD []) = Except.ok buf →
        ¬ MAX_IMAGE_SIZE_BYTES < buf.length →
        env.connectionString = some cs →
        env.uploadData 1 = Except.error m1 → env.uploadData 2 = Except.error m2 →
        env.uploadData 3 = Except.error m3 →
        (handler (some body) env).1 = respUploadFailed (exhaustHead ++ m3)) ∧
    (∀ m, (respUploadFailed m).status = 500 ∧ respUploadFailed m ≠ respInvalidJson ∧
        respUploadFailed m ≠ respMissingFields ∧ respUploadFailed m ≠ respInvalidUserId ∧
        respUploadFailed m ≠ respInvalidBase64 ∧ respUploadFailed m ≠ respDecodeFailure ∧
        ∀ n, respUploadFailed m ≠ respOversize n) := by
  refine ⟨?_, ?_, ?_, ?_, ?_⟩
  · intro env fn buf
    rcases h1 : env.uploadData 1 with m1 | u1 <;>
    rcases h2 : env.uploadData 2 with m2 | u2 <;>
    rcases h3 : env.uploadData 3 with m3 | u3 <;>
      simp [uploadWithRetry, MAX_RETRIES, attemptLoop, h1, h2, h3, countAttempts]
  · intro env fn buf m1 m2 h1 h2 h3
    simp [uploadWithRetry, MAX_RETRIES, attemptLoop, h1, h2, h3, RETRY_DELAY_MS]
  · intro env fn buf m1 m2 m3 h1 h2 h3
    simp [uploadWithRetry, MAX_RETRIES, attemptLoop, h1, h2, h3, RETRY_DELAY_MS]
  · intro body env buf cs m1 m2 m3 h h2 h3 h4 h5 h6 h7 h8 h9
    simp only [Bool.and_eq_true] at h
    obtain ⟨h1a, h1b⟩ := h
    simp [handler, h1a, h1b, h2, h3, h4, h5, h6, h7, h8, h9, uploadWithRetry,
      MAX_RETRIES, attemptLoop]
  · intro m
    refine ⟨rfl, ?_, ?_, ?_, ?_, ?_, ?_⟩
    · intro h
      have h' : ("Upload failed".toList) = ("Invalid request".toList) :=
        congrArg (fun r => match r with | Response.fail _ e _ => e | _ => []) h
      exact absurd h' (by decide)
    · intro h
      have h' : (500 : Nat) = 400 := congrArg Response.status h
      exact absurd h' (by decide)
    · intro h
      have h' : (500 : Nat) = 400 := congrArg Response.status h
      exact absurd h' (by decide)
    · intro h
      have h' : (500 : Nat) = 400 := congrArg Response.status h
      exact absurd h' (by decide)
    · intro h
      have h' : (500 : Nat) = 400 := congrArg Response.status h
      exact absurd h' (by decide)
    · intro n h
      have h' : (500 : Nat) = 413 := congrArg Response.status h
      exact absurd h' (by decide)

/-- Witness for C2: the fail-fail-succeed and fail-fail-fail scenarios on
concrete environments, and the handler's 500 mapping. -/
theorem C2_retry_policy_witness :
    countAttempts (uploadWithRetry envFailAll ("f.jpg".toList) [0]).2 ≤ 3 ∧
    uploadWithRetry envFail12 ("f.jpg".toList) [0] =
      (Except.ok (some (envFail12.blobUrl ("f.jpg".toList))),
       [Effect.uploadAttempt 1 ("f.jpg".toList) [0], Effect.sleep 1000,
        Effect.uploadAttempt 2 ("f.jpg".toList) [0], Effect.sleep 2000,
        Effect.uploadAttempt 3 ("f.jpg".toList) [0]]) ∧
    uploadWithRetry envFailAll ("f.jpg".toList) [0] =
      (Except.error (exhaustHead ++ ("boom".toList)),
       [Effect.uploadAttempt 1 ("f.jpg".toList) [0], Effect.sleep 1000,
        Effect.uploadAttempt 2 ("f.jpg".toList) [0], Effect.sleep 2000,
        Effect.uploadAttempt 3 ("f.jpg".toList) [0]]) ∧
    (handler (some bodyGood) envFailAll).1 = respUploadFailed (exhaustHead ++ ("boom".toList)) :=
  ⟨C2_retry_policy.1 envFailAll ("f.jpg".toList) [0],
   C2_retry_policy.2.1 envFail12 ("f.jpg".toList) [0] ("boom".toList) ("boom".toList)
     rfl rfl rfl,
   C2_retry_policy.2.2.1 envFailAll ("f.jpg".toList) [0] ("boom".toList) ("boom".toList)
     ("boom".toList) rfl rfl rfl,
   C2_retry_policy.2.2.2.1 bodyGood envFailAll
     (nodeB64Decode (stripDataUri ("QQ==".toList))) ("cs".toList)
     ("boom".toList) ("boom".toList) ("boom".toList)
     (by decide) (by decide) (by decide) rfl (by decide) rfl rfl rfl rfl⟩

/-- C3 counterexample: with the custom filename `a.jpgb` the derived
filename is `a.jpgb.jpg`, but the returned `imageId` is `ab.jpg` —
JavaScript `replace('.jpg', '')` removes the first occurrence — which is
not the filename with its trailing `.jpg` suffix removed (`a.jpgb`). -/
theorem C3_imageId_counterexample :
    generateUniqueFileName envNode.nowMs envNode.uuid ("u".toList) (some ("a.jpgb".toList)) =
      ("a.jpgb.jpg".toList) ∧
    (handler (some bodyC3) envNode).1 =
      Response.success
        (some (("https://store.example/yard-images/".toList) ++ ("a.jpgb.jpg".toList)))
        ("ab.jpg".toList) ("2024-01-01T00:00:00.000Z".toList) 1 0 ∧
    ("ab.jpg".toList) ≠ specDerivedId ("a.jpgb.jpg".toList) := by
  decide

/-- `removeFirstJpg` agrees with stripping the trailing `.jpg` suffix
whenever `.jpg` occurs in the string only as that trailing suffix. -/
theorem removeFirstJpg_eq_spec :
    ∀ fn : JStr,
      (∀ i, i < fn.length → jpgExt.isPrefixOf (List.drop i fn) = true →
        i + jpgExt.length = fn.length) →
      removeFirstJpg fn = specDerivedId fn := by
  intro fn
  induction fn with
  | nil => intro _; rfl
  | cons c rest ih =>
    intro h
    by_cases hp : jpgExt.isPrefixOf (c :: rest) = true
    · have h0 := h 0 (by simp) (by simpa using hp)
      have hpre : jpgExt <+: c :: rest := List.isPrefixOf_iff_prefix.mp hp
      have heq : jpgExt = c :: rest := hpre.eq_of_length (by simpa using h0)
      rw [← heq]
      decide
    · have hrest : ∀ i, i < rest.length → jpgExt.isPrefixOf (List.drop i rest) = true →
          i + jpgExt.length = rest.length := by
        intro i hib hi
        have hstep := h (i + 1) (by simp; omega) (by simpa using hi)
        simp only [List.length_cons] at hstep
        omega
      have ihr := ih hrest
      have hL : removeFirstJpg (c :: rest) = c :: removeFirstJpg rest := by
        simp [removeFirstJpg, hp]
      by_cases hs : endsWithJpg rest = true
      · have hsuf : jpgExt <:+ rest := List.isSuffixOf_iff_suffix.mp hs
        have hlen : jpgExt.length ≤ rest.length := hsuf.length_le
        have hj : jpgExt.length = 4 := rfl
        have hcs : endsWithJpg (c :: rest) = true :=
          List.isSuffixOf_iff_suffix.mpr (hsuf.trans (List.suffix_cons c rest))
        rw [hL, ihr, specDerivedId, specDerivedId, if_pos hs, if_pos hcs]
        simp only [List.length_cons]
        rw [show rest.length + 1 - jpgExt.length = (rest.length - jpgExt.length) + 1 by omega]
        rfl
      · have hs' : endsWithJpg rest = false := by
          simpa using hs
        have hcs : endsWithJpg (c :: rest) = false := by
          rw [Bool.eq_false_iff]
          intro hT
          have hsuf : jpgExt <:+ c :: rest := List.isSuffixOf_iff_suffix.mp hT
          rcases List.suffix_cons_iff.mp hsuf with heq | hsuf2
          · exact hp (List.isPrefixOf_iff_prefix.mpr (heq ▸ List.prefix_refl _))
          · exact hs (List.isSuffixOf_iff_suffix.mpr hsuf2)
        rw [hL, ihr, specDerivedId, specDerivedId, if_neg (by simp [hs']), if_neg (by simp [hcs])]

/-- C3 amended: for every successful upload, the `imageId` returned to the
caller equals the derived filename with the first occurrence of `.jpg`
removed; this coincides with stripping the trailing `.jpg` suffix exactly
when `.jpg` occurs in the filename only as that trailing suffix (a custom
filename containing `.jpg` elsewhere makes the two differ). -/
theorem C3_imageId_amended :
    (∀ body env buf cs,
        (truthy body.imageData && truthy body.userId) = true →
        (jsTrim (body.userId.getD [])).isEmpty = false →
        isValidBase64 (body.imageData.getD []) = true →
        base64ToBuffer env.bufferFrom (body.imageData.getD []) = Except.ok buf →
        ¬ MAX_IMAGE_SIZE_BYTES < buf.length →
        env.connectionString = some cs →
        env.uploadData 1 = Except.ok () →
        (handler (some body) env).1 =
          Response.success
            (some (env.blobUrl
              (generateUniqueFileName env.nowMs env.uuid (body.userId.getD []) body.fileName)))
            (removeFirstJpg
              (generateUniqueFileName env.nowMs env.uuid (body.userId.getD []) body.fileName))
            env.nowIso buf.length (sizeMBHundredths buf.length)) ∧
    (∀ fn : JStr,
        (∀ i, i < fn.length → jpgExt.isPrefixOf (List.drop i fn) = true →
          i + jpgExt.length = fn.length) →
        removeFirstJpg fn = specDerivedId fn) := by
  constructor
  · intro body env buf cs h h2 h3 h4 h5 h6 h7
    simp only [Bool.and_eq_true] at h
    obtain ⟨h1a, h1b⟩ := h
    simp [handler, h1a, h1b, h2, h3, h4, h5, h6, h7, uploadWithRetry, MAX_RETRIES, attemptLoop]
  · exact removeFirstJpg_eq_spec

/-- Witness for C3 amended: a successful upload of `bodyGood` (synthesized
filename `u_5_ab.jpg`), whose `imageId` is `u_5_ab`, where first-occurrence
removal and trailing-suffix stripping agree. -/
theorem C3_imageId_amended_witness :
    (handler (some bodyGood) envNode).1 =
      Response.success
        (some (envNode.blobUrl
          (generateUniqueFileName envNode.nowMs envNode.uuid ("u".toList) none)))
        (removeFirstJpg (generateUniqueFileName envNode.nowMs envNode.uuid ("u".toList) none))
        envNode.nowIso 1 0 ∧
    removeFirstJpg ("u_5_ab.jpg".toList) = specDerivedId ("u_5_ab.jpg".toList) :=
  ⟨C3_imageId_amended.1 bodyGood envNode (nodeB64Decode (stripDataUri ("QQ==".toList)))
      ("cs".toList) (by decide) (by decide) (by decide) rfl (by decide) rfl rfl,
   C3_imageId_amended.2 ("u_5_ab.jpg".toList) (by decide)⟩

/-- C4 counterexample: the caller-supplied filename `a.jpg.jpg` already ends
in `.jpg`, is kept unchanged, and the result ends in `.jpg` twice — the
sanitized result does not always end in `.jpg` exactly once. -/
theorem C4_sanitize_counterexample :
    generateUniqueFileName 0 [] ("u".toList) (some ("a.jpg.jpg".toList)) =
      ("a.jpg.jpg".toList) ∧
    endsInJpgExactlyOnce ("a.jpg.jpg".toList) = false := by
  decide

/-- Sanitization is positionwise: character `i` of the sanitized name is
character `i` of the input, replaced by `_` when outside the class. -/
theorem sanitizeFileName_getElem (c : JStr) (i : Nat) :
    getElem? (sanitizeFileName c) i =
      (getElem? c i).map (fun ch => if isAllowedFileChar ch then ch else '_') := by
  induction c generalizing i with
  | nil => simp [sanitizeFileName]
  | cons a rest ih =>
    cases i with
    | zero => simp [sanitizeFileName]
    | succ j => simpa [sanitizeFileName] using ih j

/-- C4 amended: for every non-empty caller-supplied filename, each character
outside `[A-Za-z0-9._-]` is replaced by `_`, and `.jpg` is appended exactly
when the sanitized name does not already end in `.jpg`; the result always
ends in `.jpg`, and ends in `.jpg` exactly once whenever `.jpg` was
appended — but a supplied name already ending in `.jpg` is kept as is and
may end in `.jpg` more than once. -/
theorem C4_sanitize_amended :
    ∀ (nowMs : Nat) (uuid uid c : JStr), c ≠ [] →
      (∀ i : Nat, getElem? (sanitizeFileName c) i =
          (getElem? c i).map (fun ch => if isAllowedFileChar ch then ch else '_')) ∧
      endsWithJpg (generateUniqueFileName nowMs uuid uid (some c)) = true ∧
      (endsWithJpg (sanitizeFileName c) = true →
        generateUniqueFileName nowMs uuid uid (some c) = sanitizeFileName c) ∧
      (endsWithJpg (sanitizeFileName c) = false →
        generateUniqueFileName nowMs uuid uid (some c) = sanitizeFileName c ++ jpgExt ∧
        endsInJpgExactlyOnce (generateUniqueFileName nowMs uuid uid (some c)) = true) := by
  intro nowMs uuid uid c hc
  have hne : c.isEmpty = false := by
    cases c with
    | nil => exact absurd rfl hc
    | cons a rest => rfl
  have hg : generateUniqueFileName nowMs uuid uid (some c) =
      (if endsWithJpg (sanitizeFileName c) then sanitizeFileName c
       else sanitizeFileName c ++ jpgExt) := by
    simp [generateUniqueFileName, hne]
  refine ⟨sanitizeFileName_getElem c, ?_, ?_, ?_⟩
  · by_cases he : endsWithJpg (sanitizeFileName c) = true
    · rw [hg, if_pos he]; exact he
    · rw [hg, if_neg he]
      exact List.isSuffixOf_iff_suffix.mpr (List.suffix_append _ _)
  · intro he
    rw [hg, if_pos he]
  · intro he
    have hg' : generateUniqueFileName nowMs uuid uid (some c) =
        sanitizeFileName c ++ jpgExt := by
      rw [hg, if_neg (by simp [he])]
    refine ⟨hg', ?_⟩
    rw [hg']
    have hsfx : endsWithJpg (sanitizeFileName c ++ jpgExt) = true :=
      List.isSuffixOf_iff_suffix.mpr (List.suffix_append _ _)
    have hlen : (sanitizeFileName c ++ jpgExt).length - jpgExt.length =
        (sanitizeFileName c).length := by
      simp
    rw [endsInJpgExactlyOnce, hsfx, hlen, List.take_left, he]
    rfl

/-- Witness for C4 amended: the filename `photo!` has its `!` replaced by
`_` and `.jpg` appended once. -/
theorem C4_sanitize_amended_witness :
    ("photo!".toList) ≠ ([] : JStr) ∧
    getElem? (sanitizeFileName ("photo!".toList)) 5 =
      (getElem? ("photo!".toList) 5).map (fun ch => if isAllowedFileChar ch then ch else '_') ∧
    endsWithJpg (generateUniqueFileName 0 [] ("u".toList) (some ("photo!".toList))) = true ∧
    generateUniqueFileName 0 [] ("u".toList) (some ("photo!".toList)) =
      sanitizeFileName ("photo!".toList) ++ jpgExt ∧
    endsInJpgExactlyOnce (generateUniqueFileName 0 [] ("u".toList) (some ("photo!".toList))) =
      true := by
  have h := C4_sanitize_amended 0 [] ("u".toList) ("photo!".toList) (by decide)
  exact ⟨by decide, h.1 5, h.2.1, (h.2.2.2 (by decide)).1, (h.2.2.2 (by decide)).2⟩

/-- The handler's hundredths-of-a-megabyte value is exactly
`bytes / (1024*1024)` rounded (half-up) to two decimals. -/
theorem sizeMBHundredths_eq_round (n : Nat) :
    (sizeMBHundredths n : ℚ) / 100 = specActualSizeMB n := by
  have h1 : (sizeMBHundredths n : ℤ) = round ((n : ℚ) / (1024 * 1024) * 100) := by
    rw [round_eq]
    have h2 : ((n : ℚ) / (1024 * 1024) * 100 + 1 / 2) =
        (((n * 200 + 1048576 : ℕ) : ℤ) : ℚ) / ((2097152 : ℕ) : ℚ) := by
      push_cast
      ring
    rw [h2, Rat.floor_intCast_div_natCast, sizeMBHundredths, Int.natCast_div]
    congr 1
    push_cast
    ring
  rw [specActualSizeMB, ← h1]
  push_cast
  ring

/-- C5: for every request whose decoded payload exceeds the 10 MiB maximum,
the endpoint returns status 413 with a body carrying `maxSizeMB = 10` and
`actualSizeMB` equal to the decoded byte length divided by `1024*1024` and
rounded to 2 decimal places. -/
theorem C5_oversize_response :
    ∀ body env buf,
      (truthy body.imageData && truthy body.userId) = true →
      (jsTrim (body.userId.getD [])).isEmpty = false →
      isValidBase64 (body.imageData.getD []) = true →
      base64ToBuffer env.bufferFrom (body.imageData.getD []) = Except.ok buf →
      MAX_IMAGE_SIZE_BYTES < buf.length →
      handler (some body) env = (respOversize buf.length, []) ∧
      (respOversize buf.length).status = 413 ∧
      (respOversize buf.length).limitMB = some MAX_IMAGE_SIZE_MB ∧
      MAX_IMAGE_SIZE_MB = 10 ∧ MAX_IMAGE_SIZE_BYTES = 10 * 1024 * 1024 ∧
      (respOversize buf.length).actualMBH = some (sizeMBHundredths buf.length) ∧
      (sizeMBHundredths buf.length : ℚ) / 100 = specActualSizeMB buf.length := by
  intro body env buf h h2 h3 h4 h5
  simp only [Bool.and_eq_true] at h
  obtain ⟨h1a, h1b⟩ := h
  refine ⟨?_, rfl, rfl, rfl, rfl, rfl, sizeMBHundredths_eq_round buf.length⟩
  simp [handler, h1a, h1b, h2, h3, h4, h5]

/-- Witness for C5: a decoder yielding `10 MiB + 1` bytes produces the 413
response with limit 10 and the rounded actual size. -/
theorem C5_oversize_response_witness :
    MAX_IMAGE_SIZE_BYTES < (List.replicate 10485761 (0 : Nat)).length ∧
    handler (some bodyGood) envBig =
      (respOversize (List.replicate 10485761 (0 : Nat)).length, []) ∧
    (respOversize (List.replicate 10485761 (0 : Nat)).length).status = 413 ∧
    (respOversize (List.replicate 10485761 (0 : Nat)).length).limitMB = some 10 ∧
    (sizeMBHundredths (List.replicate 10485761 (0 : Nat)).length : ℚ) / 100 =
      specActualSizeMB (List.replicate 10485761 (0 : Nat)).length := by
  have hlen : MAX_IMAGE_SIZE_BYTES < (List.replicate 10485761 (0 : Nat)).length := by
    rw [List.length_replicate]
    decide
  have h := C5_oversize_response bodyGood envBig (List.replicate 10485761 (0 : Nat))
    (by decide) (by decide) (by decide) rfl hlen
  exact ⟨hlen, h.1, h.2.1, h.2.2.1, h.2.2.2.2.2.2⟩

/-- C6: the endpoint never contacts the remote object store before all
validation checks have passed — every request failing a validation check
(parse, missing fields, invalid userId, invalid or undecodable base64,
oversize) yields a 400 or 413 error response with an empty store-effect
trace: no client created, no container created, no upload attempted. -/
theorem C6_no_store_on_validation_failure :
    ∀ parsed env,
      (parsed = none ∨ ∃ body, parsed = some body ∧
        ((truthy body.imageData && truthy body.userId) = false ∨
         (jsTrim (body.userId.getD [])).isEmpty = true ∨
         isValidBase64 (body.imageData.getD []) = false ∨
         (∃ msg, base64ToBuffer env.bufferFrom (body.imageData.getD []) = Except.error msg) ∨
         (∃ buf, base64ToBuffer env.bufferFrom (body.imageData.getD []) = Except.ok buf ∧
            MAX_IMAGE_SIZE_BYTES < buf.length))) →
      (handler parsed env).2 = [] ∧
      ((handler parsed env).1.status = 400 ∨ (handler parsed env).1.status = 413) := by
  intro parsed env h
  rcases h with hn | ⟨body, hb, hcase⟩
  · subst hn
    exact ⟨rfl, Or.inl rfl⟩
  subst hb
  by_cases hm : (truthy body.imageData && truthy body.userId) = true
  · simp only [Bool.and_eq_true] at hm
    obtain ⟨h1a, h1b⟩ := hm
    by_cases h2 : (jsTrim (body.userId.getD [])).isEmpty = true
    · have hh : handler (some body) env = (respInvalidUserId, []) := by
        simp [handler, h1a, h1b, h2]
      rw [hh]
      exact ⟨rfl, Or.inl rfl⟩
    · have h2' : (jsTrim (body.userId.getD [])).isEmpty = false := by
        simpa using h2
      by_cases h3 : isValidBase64 (body.imageData.getD []) = true
      · rcases hd : base64ToBuffer env.bufferFrom (body.imageData.getD []) with msg | buf
        · have hh : handler (some body) env = (respDecodeFailure, []) := by
            simp [handler, h1a, h1b, h2', h3, hd]
          rw [hh]
          exact ⟨rfl, Or.inl rfl⟩
        · by_cases h5 : MAX_IMAGE_SIZE_BYTES < buf.length
          · have hh : handler (some body) env = (respOversize buf.length, []) := by
              simp [handler, h1a, h1b, h2', h3, hd, h5]
            rw [hh]
            exact ⟨rfl, Or.inr rfl⟩
          · exfalso
            rcases hcase with hc | hc | hc | ⟨msg, hc⟩ | ⟨buf2, hc, hlen⟩
            · simp [h1a, h1b] at hc
            · rw [hc] at h2'
              exact absurd h2' (by decide)
            · rw [h3] at hc
              exact absurd hc (by decide)
            · rw [hd] at hc
              exact absurd hc (by simp)
            · rw [hd] at hc
              obtain rfl : buf = buf2 := by
                simpa using hc
              exact h5 hlen
      · have h3' : isValidBase64 (body.imageData.getD []) = false := by
          simpa using h3
        have hh : handler (some body) env = (respInvalidBase64, []) := by
          simp [handler, h1a, h1b, h2', h3']
        rw [hh]
        exact ⟨rfl, Or.inl rfl⟩
  · have hm' : (truthy body.imageData && truthy body.userId) = false := by
      simpa using hm
    rcases Bool.and_eq_false_iff.mp hm' with h1 | h1 <;>
      · have hh : handler (some body) env = (respMissingFields, []) := by
          simp [handler, h1]
        rw [hh]
        exact ⟨rfl, Or.inl rfl⟩

/-- Witness for C6: a request with missing fields is rejected with an empty
effect trace. -/
theorem C6_no_store_on_validation_failure_witness :
    (handler (some bodyMissing) envNode).2 = [] ∧
    ((handler (some bodyMissing) envNode).1.status = 400 ∨
      (handler (some bodyMissing) envNode).1.status = 413) :=
  C6_no_store_on_validation_failure (some bodyMissing) envNode
    (Or.inr ⟨bodyMissing, rfl, Or.inl (by decide)⟩)

/-- C7 counterexample: for the empty-string `userId` (empty after trimming)
the endpoint returns the missing-fields error, not the invalid-identifier
error — the empty string is falsy and trips the presence check first. -/
theorem C7_empty_userId_counterexample :
    (jsTrim ([] : JStr)).isEmpty = true ∧
    handler (some bodyEmptyUid) envNode = (respMissingFields, []) ∧
    respMissingFields ≠ respInvalidUserId := by
  decide

/-- C7 amended: a `userId` that is empty after trimming is rejected with
status 400 before any base64 validation or store interaction — with the
invalid-identifier error when the string is non-empty (whitespace-only),
but with the missing-fields error when it is the empty string. -/
theorem C7_userId_validation_amended :
    ∀ body env u, body.userId = some u → jsTrim u = [] →
      truthy body.imageData = true →
      (u = [] → handler (some body) env = (respMissingFields, [])) ∧
      (u ≠ [] → handler (some body) env = (respInvalidUserId, [])) ∧
      respMissingFields.status = 400 ∧ respInvalidUserId.status = 400 := by
  intro body env u hu htrim hid
  refine ⟨?_, ?_, rfl, rfl⟩
  · intro he
    have h1 : truthy body.userId = false := by
      rw [hu, he]
      rfl
    simp [handler, h1]
  · intro hne
    have ht : truthy body.userId = true := by
      rw [hu]
      cases u with
      | nil => exact absurd rfl hne
      | cons a rest => rfl
    have htr : (jsTrim (body.userId.getD [])).isEmpty = true := by
      rw [hu]
      simp [htrim]
    simp [handler, hid, ht, htr]

/-- Witness for C7 amended: the whitespace-only `userId` of `bodyWs` gives
the invalid-identifier error; the empty `userId` of `bodyEmptyUid` gives
the missing-fields error. -/
theorem C7_userId_validation_amended_witness :
    handler (some bodyEmptyUid) envNode = (respMissingFields, []) ∧
    handler (some bodyWs) envNode = (respInvalidUserId, []) := by
  have h1 := C7_userId_validation_amended bodyEmptyUid envNode [] rfl (by decide) (by decide)
  have h2 := C7_userId_validation_amended bodyWs envNode (" ".toList) rfl (by decide) (by decide)
  exact ⟨h1.1 rfl, h2.2.1 (by decide)⟩

/-- C8: when compression succeeds the caller receives the re-encoder's
base64 output prefixed with exactly `data:image/jpeg;base64,` and the
`onCapture` callback fires exactly once; when the re-encoder returns no
base64 output, the compression step fails with the descriptive no-output
error, the caller is shown the processing-failed message, the callback is
not invoked, and no further compression attempt occurs. -/
theorem C8_compress_callback :
    (∀ img b, b ≠ ([] : JStr) →
      compressImage (Except.ok ⟨some b⟩) = Except.ok (dataUriJpeg ++ b) ∧
      handleUsePhoto (some img) (Except.ok ⟨some b⟩) =
        [ClientAction.callOnCapture (dataUriJpeg ++ b)]) ∧
    (∀ img r, (r = Except.ok ⟨none⟩ ∨ r = Except.ok ⟨some ([] : JStr)⟩) →
      compressTryBody r = Except.error noBase64Msg ∧
      compressImage r = Except.error processFailedMsg ∧
      handleUsePhoto (some img) r = [ClientAction.showError processFailedMsg]) := by
  constructor
  · intro img b hb
    have hbe : b.isEmpty = false := by
      cases b with
      | nil => exact absurd rfl hb
      | cons a rest => rfl
    constructor <;> simp [handleUsePhoto, compressImage, compressTryBody, hbe]
  · intro img r hr
    rcases hr with hr | hr <;> subst hr <;>
      exact ⟨rfl, rfl, rfl⟩

/-- Witness for C8: a concrete successful compression and a concrete
empty-output failure. -/
theorem C8_compress_callback_witness :
    handleUsePhoto (some ("file:///p".toList)) (Except.ok ⟨some ("QQ".toList)⟩) =
      [ClientAction.callOnCapture (dataUriJpeg ++ ("QQ".toList))] ∧
    handleUsePhoto (some ("file:///p".toList)) (Except.ok ⟨none⟩) =
      [ClientAction.showError processFailedMsg] :=
  ⟨(C8_compress_callback.1 ("file:///p".toList) ("QQ".toList) (by decide)).2,
   (C8_compress_callback.2 ("file:///p".toList) (Except.ok ⟨none⟩) (Or.inl rfl)).2.2⟩

/-- C9: for every `imageData` that passes the base64 pattern check but whose
decoding to bytes fails, the endpoint returns the 400 decode-failure error,
distinct from the pattern-check error — byte decoding is a fallible step
with its own error branch. -/
theorem C9_decode_failure_branch :
    ∀ body env msg,
      (truthy body.imageData && truthy body.userId) = true →
      (jsTrim (body.userId.getD [])).isEmpty = false →
      isValidBase64 (body.imageData.getD []) = true →
      base64ToBuffer env.bufferFrom (body.imageData.getD []) = Except.error msg →
      handler (some body) env = (respDecodeFailure, []) ∧
      respDecodeFailure.status = 400 ∧ respDecodeFailure ≠ respInvalidBase64 := by
  intro body env msg h h2 h3 h4
  simp only [Bool.and_eq_true] at h
  obtain ⟨h1a, h1b⟩ := h
  refine ⟨?_, rfl, by decide⟩
  simp [handler, h1a, h1b, h2, h3, h4]

/-- Witness for C9: a decoder that throws on `bodyGood`'s valid-pattern
payload produces the decode-failure response. -/
theorem C9_decode_failure_branch_witness :
    isValidBase64 (bodyGood.imageData.getD []) = true ∧
    handler (some bodyGood) envDecodeFail = (respDecodeFailure, []) :=
  ⟨by decide,
   (C9_decode_failure_branch bodyGood envDecodeFail ("bad".toList)
      (by decide) (by decide) (by decide) rfl).1⟩

/-- C10: the base64 pattern check does not require the payload length to be
a multiple of 4 — the single-character payload `A` passes every validation
check, decodes to zero bytes under Node's decoder, and yields a 200 success
response with `sizeBytes = 0` after an upload of the empty byte string. -/
theorem C10_single_char_payload :
    isValidBase64 ("A".toList) = true ∧
    ("A".toList).length % 4 = 1 ∧
    nodeB64Decode ("A".toList) = [] ∧
    handler (some bodyA) envNode =
      (Response.success
        (some (("https://store.example/yard-images/".toList) ++ ("u1_5_ab.jpg".toList)))
        ("u1_5_ab".toList) ("2024-01-01T00:00:00.000Z".toList) 0 0,
       [Effect.createClient, Effect.createContainer CONTAINER_NAME,
        Effect.uploadAttempt 1 ("u1_5_ab.jpg".toList) []]) := by
  decide

end BackyardGPT
